import Mathlib

/-!
Shallow embedding of `src/pages/api/btcpay/webhook.ts` (the BTCPay webhook
handler of the campaign-site repository) and verification of its
specification.

Modelling conventions:
* JavaScript numbers are modelled as exact rationals (`ℚ`); `x.toFixed(2)`
  followed by `Number(...)` is `round2` (round half away from zero at two
  decimal places — for the nonnegative amounts this pipeline handles,
  `round` of Mathlib, which rounds half up, coincides with JS `toFixed`
  semantics on exact decimal values).
* The persistent store (`prisma`) is a pair of append-only lists; list order
  is creation order, so "most recent by `createdAt` descending" is the last
  matching element.
* The HMAC digest, JSON body parsing and the two BTCPay REST queries are
  external collaborators: they enter the handler as components of an
  environment record, never inspected beyond how the handler uses them.
* `prisma` field defaults (`pointsAdded` defaults to 0, `membershipExpiresAt`
  and `userId` default to null) come from the prisma schema, which is not
  under `src/`; they are modelled from the spec, section 3.
* Membership expiry ("now + 1 year") is modelled as `Option Unit`: only its
  presence or absence is claimed.
-/

set_option autoImplicit false

namespace BtcpayWebhook

/-- Rounding to two decimal places: models `Number(x.toFixed(2))`. -/
def round2 (x : ℚ) : ℚ :=
  (round (x * 100) : ℤ) / 100

/-- JavaScript truthiness of an optional string (`undefined` and `""` are
falsy), as used by `body.metadata.userId` in the guard on line 139. -/
def truthy : Option String → Bool
  | none => false
  | some s => s ≠ ""

/-- JavaScript `split` with the one-character separator `=`, applied to the
signature header on line 52; written as a structural recursion so proofs can
evaluate it. -/
def splitEqAux : List Char → List Char → List (List Char)
  | [], acc => [acc.reverse]
  | c :: cs, acc =>
    if c = '=' then acc.reverse :: splitEqAux cs [] else splitEqAux cs (c :: acc)

/-- List of the `=`-separated segments of a string. -/
def splitEq (s : String) : List String :=
  (splitEqAux s.data []).map List.asString

/-- Metadata carried by the invoice: `DonationMetadata` from `server/types`,
string-valued.  Fields the processor may omit are `Option`. -/
structure DonationMetadata where
  staticGeneratedForApi : Option String
  projectName : String
  projectSlug : String
  fundSlug : String
  userId : Option String
  givePointsBack : Option String
  isMembership : Option String
  deriving DecidableEq, Repr

/-- The parsed webhook body (`BtcpayBody`), restricted to the fields the
handler reads. `payment.value` and `paymentMethod` are only present on
`InvoicePaymentSettled` deliveries; `paymentMethod` is compared as a string
(absence behaves like any string other than `"BTC-OnChain"`, which the
`""` default also models). -/
structure BtcpayBody where
  type : String
  invoiceId : String
  metadata : DonationMetadata
  paymentMethod : String
  paymentValue : ℚ
  deriving DecidableEq, Repr

/-- One entry of the `GET /invoices/{id}/payment-methods` response. -/
structure PaymentMethod where
  cryptoCode : String
  rate : ℚ
  amount : ℚ
  deriving DecidableEq, Repr

/-- A persisted `Donation` row.  `pointsAdded` and `membershipExpiresAt`
carry the schema defaults (0, null): the prisma schema is not under `src/`,
so the defaults are modelled from the spec, section 3. -/
structure Donation where
  userId : Option String
  btcPayInvoiceId : String
  projectName : String
  projectSlug : String
  fundSlug : String
  cryptoCode : String
  grossCryptoAmount : ℚ
  grossFiatAmount : ℚ
  netCryptoAmount : ℚ
  netFiatAmount : ℚ
  pointsAdded : ℤ := 0
  membershipExpiresAt : Option Unit := none
  deriving DecidableEq, Repr

/-- A persisted `PointHistory` row.  `donationId` is the index of the
donation row it links to. -/
structure PointHistory where
  donationId : ℕ
  userId : String
  fundSlug : String
  projectSlug : String
  pointsAdded : ℤ
  pointsBalance : ℤ
  deriving DecidableEq, Repr

/-- The durable store: two append-only tables, list order = creation order. -/
structure Db where
  donations : List Donation
  pointHistories : List PointHistory
  deriving DecidableEq, Repr

/-- Model of `prisma.pointHistory.findFirst` with
`where {userId, fundSlug, projectSlug, pointsAdded: {gt: 0}}` and
`orderBy {createdAt: desc}` (lines 141-149): the last created entry in the
scope with a positive award. -/
def findLatestPointsEntry (hist : List PointHistory) (uid fund proj : String) :
    Option PointHistory :=
  (hist.filter fun e =>
    e.userId = uid ∧ e.fundSlug = fund ∧ e.projectSlug = proj ∧ 0 < e.pointsAdded).getLast?

/-- The balance taken from the latest positive-award entry, 0 when none
exists (line 151). -/
def currentBalance (hist : List PointHistory) (uid fund proj : String) : ℤ :=
  match findLatestPointsEntry hist uid fund proj with
  | some e => e.pointsBalance
  | none => 0

/-- Model of `prisma.pointHistory.create` (lines 153-162). -/
def appendPointsEntry (hist : List PointHistory) (did : ℕ) (uid fund proj : String)
    (bal add : ℤ) : List PointHistory :=
  hist ++ [{ donationId := did, userId := uid, fundSlug := fund, projectSlug := proj,
             pointsAdded := add, pointsBalance := bal + add }]

/-- One full-settlement leg (the body of the `paymentMethods.map` callback,
lines 104-164), executed sequentially against the store. -/
def processLeg (meta : DonationMetadata) (invoiceId : String)
    (pm : PaymentMethod) (db : Db) : Db :=
  let shouldGivePointsBack := meta.givePointsBack = some "true"
  let cryptoRate := pm.rate
  let grossCryptoAmount := pm.amount
  let grossFiatAmount := grossCryptoAmount * cryptoRate
  let netCryptoAmount :=
    if shouldGivePointsBack then grossCryptoAmount * (9/10) else grossCryptoAmount
  let netFiatAmount := netCryptoAmount * cryptoRate
  if grossCryptoAmount = 0 then db
  else
    let pointsAdded : ℤ :=
      if shouldGivePointsBack then ⌊round2 grossFiatAmount * 100⌋ else 0
    let donation : Donation :=
      { userId := meta.userId
        btcPayInvoiceId := invoiceId
        projectName := meta.projectName
        projectSlug := meta.projectSlug
        fundSlug := meta.fundSlug
        cryptoCode := pm.cryptoCode
        grossCryptoAmount := round2 grossCryptoAmount
        grossFiatAmount := round2 grossFiatAmount
        netCryptoAmount := round2 netCryptoAmount
        netFiatAmount := round2 netFiatAmount
        pointsAdded := pointsAdded
        membershipExpiresAt := if meta.isMembership = some "true" then some () else none }
    let donationId := db.donations.length
    let db' : Db := { db with donations := db.donations ++ [donation] }
    if shouldGivePointsBack ∧ truthy meta.userId then
      match meta.userId with
      | some uid =>
        { db' with
          pointHistories :=
            appendPointsEntry db'.pointHistories donationId uid meta.fundSlug
              meta.projectSlug
              (currentBalance db'.pointHistories uid meta.fundSlug meta.projectSlug)
              pointsAdded }
      | none => db'
    else db'

/-- The HTTP response: `res.status(405).end(...)` carries no JSON body
(`success := none`); the JSON responses carry `{success: bool}`. -/
structure HttpResponse where
  status : ℕ
  success : Option Bool
  deriving DecidableEq, Repr

/-- External collaborators of the handler: the HMAC-SHA256 hex digest under
the shared webhook secret, `JSON.parse`, and the two BTCPay REST queries
(`/rates?currencyPair=...` returning the rate list, and
`/invoices/{id}/payment-methods`). -/
structure Env where
  hmacHex : String → String
  parse : String → BtcpayBody
  rates : String → List ℚ
  paymentMethods : String → List PaymentMethod

/-- The inbound request: method, the `btcpay-sig` header when present as a
string, and the raw body bytes. -/
structure WebhookRequest where
  method : String
  btcpaySig : Option String
  rawBody : String

/-- Model of `handleBtcpayWebhook` (lines 32-169).  `none` models an uncaught
exception (the only such point reachable here is an empty rate list on the
`InvoicePaymentSettled` path, where `rates[0].rate` throws). -/
def handleBtcpayWebhook (env : Env) (req : WebhookRequest) (db : Db) :
    Option (HttpResponse × Db) :=
  if req.method ≠ "POST" then
    some ({ status := 405, success := none }, db)
  else
    match req.btcpaySig with
    | none => some ({ status := 400, success := some false }, db)
    | some sig =>
      let body := env.parse req.rawBody
      let expectedSigHash := env.hmacHex req.rawBody
      let incomingSigHash := (splitEq sig).get? 1
      if incomingSigHash ≠ some expectedSigHash then
        some ({ status := 400, success := some false }, db)
      else
        if body.type = "InvoicePaymentSettled" then
          if body.metadata.staticGeneratedForApi = some "false" then
            some ({ status := 200, success := some true }, db)
          else
            let cryptoCode := if body.paymentMethod = "BTC-OnChain" then "BTC" else "XMR"
            match (env.rates (cryptoCode ++ "_USD")).head? with
            | none => none
            | some cryptoRate =>
              let cryptoAmount := body.paymentValue
              let fiatAmount := round2 (cryptoAmount * cryptoRate)
              let donation : Donation :=
                { userId := none
                  btcPayInvoiceId := body.invoiceId
                  projectName := body.metadata.projectName
                  projectSlug := body.metadata.projectSlug
                  fundSlug := body.metadata.fundSlug
                  cryptoCode := cryptoCode
                  grossCryptoAmount := cryptoAmount
                  grossFiatAmount := fiatAmount
                  netCryptoAmount := cryptoAmount
                  netFiatAmount := fiatAmount }
              some ({ status := 200, success := some true },
                    { db with donations := db.donations ++ [donation] })
        else if body.type = "InvoiceSettled" then
          if body.metadata.staticGeneratedForApi = some "true" then
            some ({ status := 200, success := some true }, db)
          else
            let db' := (env.paymentMethods body.invoiceId).foldl
              (fun acc pm => processLeg body.metadata body.invoiceId pm acc) db
            some ({ status := 200, success := some true }, db')
        else
          some ({ status := 200, success := some true }, db)

/-- The comparison segment as the spec/claim words it: the portion of the
header value following its first `=` delimiter (everything after the first
`=`). The source instead takes element 1 of the `=`-split, the segment between
the first and second `=`; the two agree only when the header contains at
most one `=`. -/
def afterFirstEqAux : List Char → Option (List Char)
  | [] => none
  | c :: cs => if c = '=' then some cs else afterFirstEqAux cs

/-- Everything of `s` after its first `=` character, `none` when `s` has
no `=`. -/
def headerAfterFirstEq (s : String) : Option String :=
  (afterFirstEqAux s.data).map List.asString

/-- The store left by a full-settlement leg in which the
`prisma.pointHistory.create` call (line 153) throws: the preceding
`prisma.donation.create` (line 120) was a separate awaited call, already
persisted, and no `prisma.$transaction` scope exists to roll it back, so the
post-state keeps the donation and loses the points entry. -/
def processLegPointsCreateThrows (meta : DonationMetadata) (invoiceId : String)
    (pm : PaymentMethod) (db : Db) : Db :=
  let shouldGivePointsBack := meta.givePointsBack = some "true"
  let grossCryptoAmount := pm.amount
  let grossFiatAmount := grossCryptoAmount * pm.rate
  let netCryptoAmount :=
    if shouldGivePointsBack then grossCryptoAmount * (9/10) else grossCryptoAmount
  let netFiatAmount := netCryptoAmount * pm.rate
  if grossCryptoAmount = 0 then db
  else
    let pointsAdded : ℤ :=
      if shouldGivePointsBack then ⌊round2 grossFiatAmount * 100⌋ else 0
    let donation : Donation :=
      { userId := meta.userId
        btcPayInvoiceId := invoiceId
        projectName := meta.projectName
        projectSlug := meta.projectSlug
        fundSlug := meta.fundSlug
        cryptoCode := pm.cryptoCode
        grossCryptoAmount := round2 grossCryptoAmount
        grossFiatAmount := round2 grossFiatAmount
        netCryptoAmount := round2 netCryptoAmount
        netFiatAmount := round2 netFiatAmount
        pointsAdded := pointsAdded
        membershipExpiresAt := if meta.isMembership = some "true" then some () else none }
    { db with donations := db.donations ++ [donation] }

/-- The stale-read interleaving two point-awarding legs of one invoice can
exhibit under the `Promise.all` fan-out (line 103): the `findFirst` of both
legs (line 141) completes before either `create` (line 153) runs, so both
read the same prior balance. `a1`, `a2` are the `pointsAdded` of the two
legs; entries are appended in the order the creates land. -/
def raceInterleaving (uid fund proj : String) (a1 a2 : ℤ)
    (hist : List PointHistory) : List PointHistory :=
  let b1 := currentBalance hist uid fund proj
  let b2 := currentBalance hist uid fund proj
  let hist1 := appendPointsEntry hist 0 uid fund proj b1 a1
  appendPointsEntry hist1 1 uid fund proj b2 a2

/-- The serialized order of the same two legs: the `findFirst` of the second
leg runs after the `create` of the first leg has landed. -/
def serializedLegs (uid fund proj : String) (a1 a2 : ℤ)
    (hist : List PointHistory) : List PointHistory :=
  let hist1 := appendPointsEntry hist 0 uid fund proj
    (currentBalance hist uid fund proj) a1
  appendPointsEntry hist1 1 uid fund proj
    (currentBalance hist1 uid fund proj) a2

/-- Round-to-nearest at scale `2^e`: the IEEE-754 binary64 rounding of a real
number lying in the binade whose unit in the last place is `2^(-e)`
(53-bit significand).  Mathlib `round` resolves ties upward; at the two
concrete points used below the scaled values are not ties (fractional parts
0.44 and 0.3125), so this agrees with round-to-nearest-even. -/
def fl (e : ℕ) (x : ℚ) : ℚ :=
  (round (x * 2 ^ e) : ℤ) / 2 ^ e

/-- A metadata fixture: points opted in, a user present, not API-generated,
no membership. -/
def sampleMeta : DonationMetadata :=
  { staticGeneratedForApi := none
    projectName := "p"
    projectSlug := "ps"
    fundSlug := "fs"
    userId := some "u"
    givePointsBack := some "true"
    isMembership := none }

/-- The empty store. -/
def emptyDb : Db :=
  { donations := [], pointHistories := [] }

/-- An environment whose digest is the constant `"h"` and whose parsed body
has an unrecognized event type, so a verified request is acknowledged with
no processing. -/
def cexEnv : Env :=
  { hmacHex := fun _ => "h"
    parse := fun _ =>
      { type := "Other", invoiceId := "i", metadata := sampleMeta,
        paymentMethod := "", paymentValue := 0 }
    rates := fun _ => []
    paymentMethods := fun _ => [] }

/-- An environment delivering an `InvoicePaymentSettled` event whose
metadata says it was not API-generated (the skip case). -/
def skipPaymentEnv : Env :=
  { hmacHex := fun _ => "h"
    parse := fun _ =>
      { type := "InvoicePaymentSettled", invoiceId := "i",
        metadata := { sampleMeta with staticGeneratedForApi := some "false" },
        paymentMethod := "BTC-OnChain", paymentValue := 1 }
    rates := fun _ => []
    paymentMethods := fun _ => [] }

/-- An environment delivering an `InvoiceSettled` event whose metadata says
it was API-generated (the skip case). -/
def skipSettledEnv : Env :=
  { hmacHex := fun _ => "h"
    parse := fun _ =>
      { type := "InvoiceSettled", invoiceId := "i",
        metadata := { sampleMeta with staticGeneratedForApi := some "true" },
        paymentMethod := "", paymentValue := 0 }
    rates := fun _ => []
    paymentMethods := fun _ => [] }

/-- An environment delivering an `InvoiceSettled` event over an invoice with
two payment methods, the first of zero amount. -/
def twoLegEnv : Env :=
  { hmacHex := fun _ => "h"
    parse := fun _ =>
      { type := "InvoiceSettled", invoiceId := "i", metadata := sampleMeta,
        paymentMethod := "", paymentValue := 0 }
    rates := fun _ => []
    paymentMethods := fun _ => [{ cryptoCode := "BTC", rate := 1, amount := 0 },
                                { cryptoCode := "XMR", rate := 1, amount := 5 }] }

/-- An environment delivering a processed `InvoicePaymentSettled` event whose
metadata nevertheless carries a user, the points flag and the membership
flag. -/
def apiInvoiceEnv : Env :=
  { hmacHex := fun _ => "h"
    parse := fun _ =>
      { type := "InvoicePaymentSettled", invoiceId := "i",
        metadata := { sampleMeta with
                      staticGeneratedForApi := some "true"
                      isMembership := some "true" },
        paymentMethod := "BTC-OnChain", paymentValue := 3 }
    rates := fun _ => [2]
    paymentMethods := fun _ => [] }

end BtcpayWebhook

namespace BtcpayWebhook

/-- Helper: a payment method with zero crypto amount leaves the store
untouched (line 114). -/
theorem processLeg_zero_amount (m : DonationMetadata) (i : String) (pm : PaymentMethod)
    (db : Db) (h : pm.amount = 0) : processLeg m i pm db = db := by
  simp [processLeg, h]

/-- C1: on a full-settlement leg that awards points and carries a userId,
the newly created points-history entry has pointsBalance equal to the
pointsBalance of the most recent previously created entry in the same
(userId, fundSlug, projectSlug) scope with pointsAdded > 0 (0 when none
exists) plus the pointsAdded of the new entry. -/
theorem pointsBalance_chains_from_latest_entry (m : DonationMetadata) (i : String)
    (pm : PaymentMethod) (db : Db) (uid : String)
    (hf : m.givePointsBack = some "true") (hu : m.userId = some uid)
    (hu0 : uid ≠ "") (ha : pm.amount ≠ 0) :
    ∃ e : PointHistory,
      (processLeg m i pm db).pointHistories = db.pointHistories ++ [e] ∧
      e.pointsBalance =
        currentBalance db.pointHistories uid m.fundSlug m.projectSlug + e.pointsAdded ∧
      e.userId = uid ∧ e.fundSlug = m.fundSlug ∧ e.projectSlug = m.projectSlug := by
  refine ⟨{ donationId := db.donations.length, userId := uid, fundSlug := m.fundSlug,
            projectSlug := m.projectSlug,
            pointsAdded := ⌊round2 (pm.amount * pm.rate) * 100⌋,
            pointsBalance := currentBalance db.pointHistories uid m.fundSlug m.projectSlug
              + ⌊round2 (pm.amount * pm.rate) * 100⌋ }, ?_, rfl, rfl, rfl, rfl⟩
  simp [processLeg, hf, hu, truthy, hu0, ha, appendPointsEntry]

end BtcpayWebhook

namespace BtcpayWebhook

/-- C2 (amended): on a full-settlement leg with nonzero amount the persisted
donation has grossCryptoAmount = round2(amount) and
grossFiatAmount = round2(amount x rate); with the points opt-in,
netCryptoAmount = round2(amount x 0.9) and
netFiatAmount = round2(amount x 0.9 x rate), each rounded independently
from the raw amount; without the opt-in the net amounts equal the gross
amounts. -/
theorem fullSettlement_amounts (m : DonationMetadata) (i : String) (pm : PaymentMethod)
    (db : Db) (ha : pm.amount ≠ 0) :
    ∃ d : Donation, (processLeg m i pm db).donations = db.donations ++ [d] ∧
      d.grossCryptoAmount = round2 pm.amount ∧
      d.grossFiatAmount = round2 (pm.amount * pm.rate) ∧
      (m.givePointsBack = some "true" →
        d.netCryptoAmount = round2 (pm.amount * (9/10)) ∧
        d.netFiatAmount = round2 (pm.amount * (9/10) * pm.rate)) ∧
      (m.givePointsBack ≠ some "true" →
        d.netCryptoAmount = d.grossCryptoAmount ∧ d.netFiatAmount = d.grossFiatAmount) := by
  by_cases hf : m.givePointsBack = some "true"
  · refine ⟨{ userId := m.userId
              btcPayInvoiceId := i
              projectName := m.projectName
              projectSlug := m.projectSlug
              fundSlug := m.fundSlug
              cryptoCode := pm.cryptoCode
              grossCryptoAmount := round2 pm.amount
              grossFiatAmount := round2 (pm.amount * pm.rate)
              netCryptoAmount := round2 (pm.amount * (9/10))
              netFiatAmount := round2 (pm.amount * (9/10) * pm.rate)
              pointsAdded := ⌊round2 (pm.amount * pm.rate) * 100⌋
              membershipExpiresAt := if m.isMembership = some "true" then some () else none },
      ?_, rfl, rfl, fun _ => ⟨rfl, rfl⟩, fun h => absurd hf h⟩
    simp only [processLeg, hf, if_true, ha, if_neg, if_false]
    split <;> cases hm : m.userId <;> simp_all
  · refine ⟨{ userId := m.userId
              btcPayInvoiceId := i
              projectName := m.projectName
              projectSlug := m.projectSlug
              fundSlug := m.fundSlug
              cryptoCode := pm.cryptoCode
              grossCryptoAmount := round2 pm.amount
              grossFiatAmount := round2 (pm.amount * pm.rate)
              netCryptoAmount := round2 pm.amount
              netFiatAmount := round2 (pm.amount * pm.rate)
              pointsAdded := 0
              membershipExpiresAt := if m.isMembership = some "true" then some () else none },
      ?_, rfl, rfl, fun h => absurd h hf, fun _ => ⟨rfl, rfl⟩⟩
    simp only [processLeg, hf, if_false, ha, if_neg]
    split <;> cases hm : m.userId <;> simp_all

/-- C2 witness: the amended statement evaluated on a concrete leg of amount
0.015 at rate 100. -/
theorem fullSettlement_amounts_witness :
    ∃ d : Donation,
      (processLeg sampleMeta "inv" { cryptoCode := "BTC", rate := 100, amount := 3/200 }
          { donations := [], pointHistories := [] }).donations =
        ({ donations := [], pointHistories := [] } : Db).donations ++ [d] ∧
      d.grossCryptoAmount = round2 (3/200) ∧
      d.grossFiatAmount = round2 ((3/200) * 100) ∧
      (sampleMeta.givePointsBack = some "true" →
        d.netCryptoAmount = round2 ((3/200) * (9/10)) ∧
        d.netFiatAmount = round2 ((3/200) * (9/10) * 100)) ∧
      (sampleMeta.givePointsBack ≠ some "true" →
        d.netCryptoAmount = d.grossCryptoAmount ∧ d.netFiatAmount = d.grossFiatAmount) :=
  fullSettlement_amounts sampleMeta "inv" { cryptoCode := "BTC", rate := 100, amount := 3/200 }
    { donations := [], pointHistories := [] } (by norm_num)

/-- C2 counterexample: for amount 0.015 at rate 100 with points opted in,
the stored netCryptoAmount is 0.01, not round2 of the stored
grossCryptoAmount (0.02) times 0.9, which is 0.02; and the stored
netFiatAmount 1.35 is independently rounded, not the stored netCryptoAmount
times the rate. -/
theorem netAmounts_rounding_cex :
    ((processLeg sampleMeta "inv" { cryptoCode := "BTC", rate := 100, amount := 3/200 }
        { donations := [], pointHistories := [] }).donations.map
      fun d => (d.grossCryptoAmount, d.netCryptoAmount, d.netFiatAmount))
      = [(1/50, 1/100, 27/20)] ∧
    ¬ ((1/100 : ℚ) = round2 ((1/50) * (9/10))) ∧
    ¬ ((27/20 : ℚ) = (1/100) * 100) := by
  refine ⟨?_, by norm_num [round2, round_eq], by norm_num⟩
  simp only [processLeg, sampleMeta, truthy]
  norm_num [round2, round_eq, appendPointsEntry]
  simp

/-- C3: the ideal (exact rational) embedding awards 1999 points for a gross
fiat amount of 19.99, as the claim states; but IEEE-754 binary64 arithmetic,
which the JavaScript source uses, rounds 19.99 below the exact value, so
multiplying the parsed `toFixed(2)` result by 100 lands strictly below 1999
and the `parseInt` truncation yields 1998: the code slips below the spec at
this input. -/
theorem pointsAdded_binary64_slip :
    ((processLeg sampleMeta "inv" { cryptoCode := "BTC", rate := 1, amount := 1999/100 }
        { donations := [], pointHistories := [] }).donations.map Donation.pointsAdded)
      = [1999] ∧
    fl 48 (1999/100) < 1999/100 ∧
    ⌊fl 42 (fl 48 (1999/100) * 100)⌋ = 1998 := by
  refine ⟨?_, by norm_num [fl, round_eq], by norm_num [fl, round_eq]⟩
  simp only [processLeg, sampleMeta, truthy]
  norm_num [round2, round_eq, appendPointsEntry]
  simp

/-- C7: the two writes of a leg are not atomic: when the points insert
throws after the donation insert was awaited, the post-state keeps the
donation and has no points entry, although the same leg without the failure
does create one - a reachable state the claim rules out. -/
theorem points_write_failure_orphans_donation :
    (processLegPointsCreateThrows sampleMeta "inv"
        { cryptoCode := "BTC", rate := 1, amount := 20 }
        { donations := [], pointHistories := [] }).donations.length = 1 ∧
    (processLegPointsCreateThrows sampleMeta "inv"
        { cryptoCode := "BTC", rate := 1, amount := 20 }
        { donations := [], pointHistories := [] }).pointHistories = [] ∧
    (processLeg sampleMeta "inv" { cryptoCode := "BTC", rate := 1, amount := 20 }
        { donations := [], pointHistories := [] }).pointHistories.length = 1 := by decide

/-- C8 counterexample: a flagged leg of amount 0.001 at rate 1 with a user
present creates a points-history entry whose pointsAdded is 0, so entries
are not created only when pointsAdded > 0 as the claim words it. -/
theorem zero_points_entry_cex :
    ((processLeg sampleMeta "inv" { cryptoCode := "BTC", rate := 1, amount := 1/1000 }
        { donations := [], pointHistories := [] }).pointHistories.map
      PointHistory.pointsAdded) = [0] ∧
    (processLeg sampleMeta "inv" { cryptoCode := "BTC", rate := 1, amount := 1/1000 }
        { donations := [], pointHistories := [] }).pointHistories.length = 1 := by
  constructor <;>
    · simp only [processLeg, sampleMeta, truthy]
      norm_num [round2, round_eq, appendPointsEntry, currentBalance, findLatestPointsEntry]
      simp

/-- C9: under the stale-read interleaving of two point-awarding legs in one
scope (awards 1000 and 500 over prior balance 0), the final balance is 500,
not the 1500 the claim requires under every interleaving; the serialized
order does give 1500. -/
theorem stale_balance_interleaving :
    currentBalance (raceInterleaving "u" "fs" "ps" 1000 500 []) "u" "fs" "ps" = 500 ∧
    currentBalance (serializedLegs "u" "fs" "ps" 1000 500 []) "u" "fs" "ps" = 1500 ∧
    (500 : ℤ) ≠ 0 + (1000 + 500) := by decide

end BtcpayWebhook

namespace BtcpayWebhook

/-- Helper: a leg with nonzero amount appends exactly one donation. -/
theorem processLeg_donations_append (m : DonationMetadata) (i : String)
    (pm : PaymentMethod) (db : Db) (ha : pm.amount ≠ 0) :
    ∃ d : Donation, (processLeg m i pm db).donations = db.donations ++ [d] := by
  simp only [processLeg, ha, if_neg, if_false]
  split <;> cases hm : m.userId <;> simp_all

/-- C1 witness: the chained balance evaluated on a concrete first-ever leg
of amount 1 at rate 100. -/
theorem pointsBalance_chains_witness :
    ∃ e : PointHistory,
      (processLeg sampleMeta "inv" { cryptoCode := "BTC", rate := 100, amount := 1 }
        emptyDb).pointHistories = emptyDb.pointHistories ++ [e] ∧
      e.pointsBalance =
        currentBalance emptyDb.pointHistories "u" sampleMeta.fundSlug
          sampleMeta.projectSlug + e.pointsAdded ∧
      e.userId = "u" ∧ e.fundSlug = sampleMeta.fundSlug ∧
      e.projectSlug = sampleMeta.projectSlug :=
  pointsBalance_chains_from_latest_entry sampleMeta "inv"
    { cryptoCode := "BTC", rate := 100, amount := 1 } emptyDb "u" rfl rfl
    (by decide) (by norm_num)

/-- C4 (amended): a non-POST request is answered 405 with no processing; a
missing signature header, or a header whose segment between the first and
second `=` differs from the HMAC hex digest of the raw body, is answered 400
with success false and leaves the store untouched. -/
theorem auth_fails_closed (env : Env) (req : WebhookRequest) (db : Db) :
    (req.method ≠ "POST" →
      handleBtcpayWebhook env req db = some ({ status := 405, success := none }, db)) ∧
    (req.method = "POST" → req.btcpaySig = none →
      handleBtcpayWebhook env req db =
        some ({ status := 400, success := some false }, db)) ∧
    (∀ sig, req.method = "POST" → req.btcpaySig = some sig →
      (splitEq sig)[1]? ≠ some (env.hmacHex req.rawBody) →
      handleBtcpayWebhook env req db =
        some ({ status := 400, success := some false }, db)) := by
  refine ⟨fun h => ?_, fun hm h => ?_, fun sig hm hs hne => ?_⟩
  · simp [handleBtcpayWebhook, h]
  · simp [handleBtcpayWebhook, hm, h]
  · simp [handleBtcpayWebhook, hm, hs, hne]

/-- C4 witness: the three rejection branches evaluated on concrete
requests. -/
theorem auth_fails_closed_witness :
    handleBtcpayWebhook cexEnv { method := "GET", btcpaySig := none, rawBody := "b" }
      emptyDb = some ({ status := 405, success := none }, emptyDb) ∧
    handleBtcpayWebhook cexEnv { method := "POST", btcpaySig := none, rawBody := "b" }
      emptyDb = some ({ status := 400, success := some false }, emptyDb) ∧
    handleBtcpayWebhook cexEnv
      { method := "POST", btcpaySig := some "sha256=x", rawBody := "b" } emptyDb =
      some ({ status := 400, success := some false }, emptyDb) :=
  ⟨(auth_fails_closed cexEnv { method := "GET", btcpaySig := none, rawBody := "b" }
      emptyDb).1 (by decide),
   (auth_fails_closed cexEnv { method := "POST", btcpaySig := none, rawBody := "b" }
      emptyDb).2.1 rfl rfl,
   (auth_fails_closed cexEnv
      { method := "POST", btcpaySig := some "sha256=x", rawBody := "b" }
      emptyDb).2.2 "sha256=x" rfl rfl (by decide)⟩

/-- C4 counterexample: with digest h and header sha256=h=x, the portion of
the header after its first `=` is h=x, which differs from the digest, so the
claim as stated demands a 400 rejection; the code instead compares only the
segment between the first and second `=` and accepts the request,
answering 200. -/
theorem sig_segment_cex :
    headerAfterFirstEq "sha256=h=x" = some "h=x" ∧
    cexEnv.hmacHex "b" = "h" ∧ some "h" ≠ headerAfterFirstEq "sha256=h=x" ∧
    handleBtcpayWebhook cexEnv
      { method := "POST", btcpaySig := some "sha256=h=x", rawBody := "b" } emptyDb =
      some ({ status := 200, success := some true }, emptyDb) := by
  refine ⟨by decide, rfl, by decide, ?_⟩
  have hsig : (splitEq "sha256=h=x")[1]? = some "h" := by decide
  simp [handleBtcpayWebhook, cexEnv, hsig]

/-- C5: a verified InvoicePaymentSettled event whose metadata flag
staticGeneratedForApi is the string false, and a verified InvoiceSettled
event whose flag is the string true, are both acknowledged with 200 and
success true while the store is left untouched. -/
theorem metadata_skip_paths (env : Env) (req : WebhookRequest) (db : Db) (sig : String)
    (hm : req.method = "POST") (hs : req.btcpaySig = some sig)
    (hsig : (splitEq sig)[1]? = some (env.hmacHex req.rawBody)) :
    ((env.parse req.rawBody).type = "InvoicePaymentSettled" →
      (env.parse req.rawBody).metadata.staticGeneratedForApi = some "false" →
      handleBtcpayWebhook env req db = some ({ status := 200, success := some true }, db)) ∧
    ((env.parse req.rawBody).type = "InvoiceSettled" →
      (env.parse req.rawBody).metadata.staticGeneratedForApi = some "true" →
      handleBtcpayWebhook env req db =
        some ({ status := 200, success := some true }, db)) := by
  constructor <;> intro ht hflag <;> simp [handleBtcpayWebhook, hm, hs, hsig, ht, hflag]

/-- C5 witness: both skip paths evaluated on concrete deliveries. -/
theorem metadata_skip_paths_witness :
    handleBtcpayWebhook skipPaymentEnv
      { method := "POST", btcpaySig := some "sha256=h", rawBody := "b" } emptyDb =
      some ({ status := 200, success := some true }, emptyDb) ∧
    handleBtcpayWebhook skipSettledEnv
      { method := "POST", btcpaySig := some "sha256=h", rawBody := "b" } emptyDb =
      some ({ status := 200, success := some true }, emptyDb) :=
  ⟨(metadata_skip_paths skipPaymentEnv
      { method := "POST", btcpaySig := some "sha256=h", rawBody := "b" } emptyDb
      "sha256=h" rfl rfl (by decide)).1 rfl rfl,
   (metadata_skip_paths skipSettledEnv
      { method := "POST", btcpaySig := some "sha256=h", rawBody := "b" } emptyDb
      "sha256=h" rfl rfl (by decide)).2 rfl rfl⟩

/-- C6: a zero-amount payment method leaves the store untouched, and an
InvoiceSettled event over two payment methods, one of zero amount, creates
exactly one donation (for the nonzero leg). -/
theorem zero_amount_leg_skipped (env : Env) (req : WebhookRequest) (db : Db)
    (sig : String) (pm0 pm1 : PaymentMethod)
    (hm : req.method = "POST") (hs : req.btcpaySig = some sig)
    (hsig : (splitEq sig)[1]? = some (env.hmacHex req.rawBody))
    (ht : (env.parse req.rawBody).type = "InvoiceSettled")
    (hflag : (env.parse req.rawBody).metadata.staticGeneratedForApi ≠ some "true")
    (hpm : env.paymentMethods (env.parse req.rawBody).invoiceId = [pm0, pm1])
    (h0 : pm0.amount = 0) (h1 : pm1.amount ≠ 0) :
    (∀ (m : DonationMetadata) (i : String) (d : Db), processLeg m i pm0 d = d) ∧
    ∃ (d : Donation) (db' : Db),
      handleBtcpayWebhook env req db =
        some ({ status := 200, success := some true }, db') ∧
      db'.donations = db.donations ++ [d] := by
  refine ⟨fun m i d => processLeg_zero_amount m i pm0 d h0, ?_⟩
  obtain ⟨d, hd⟩ := processLeg_donations_append (env.parse req.rawBody).metadata
    (env.parse req.rawBody).invoiceId pm1 db h1
  refine ⟨d, processLeg (env.parse req.rawBody).metadata
    (env.parse req.rawBody).invoiceId pm1 db, ?_, hd⟩
  simp [handleBtcpayWebhook, hm, hs, hsig, ht, hflag, hpm,
    processLeg_zero_amount _ _ _ _ h0]

/-- C6 witness: the two-method invoice evaluated on a concrete delivery. -/
theorem zero_amount_leg_skipped_witness :
    ∃ (d : Donation) (db' : Db),
      handleBtcpayWebhook twoLegEnv
        { method := "POST", btcpaySig := some "sha256=h", rawBody := "b" } emptyDb =
        some ({ status := 200, success := some true }, db') ∧
      db'.donations = emptyDb.donations ++ [d] :=
  (zero_amount_leg_skipped twoLegEnv
    { method := "POST", btcpaySig := some "sha256=h", rawBody := "b" } emptyDb
    "sha256=h" { cryptoCode := "BTC", rate := 1, amount := 0 }
    { cryptoCode := "XMR", rate := 1, amount := 5 }
    rfl rfl (by decide) rfl (by decide) rfl (by norm_num) (by norm_num)).2

/-- C8 (amended): on a processed full-settlement leg a points-history entry
is created exactly when the givePointsBack flag is the string true and the
metadata carries a truthy userId (pointsAdded may then still be 0, see the
counterexample); when the condition fails, no entry is written though the
donation is still created. -/
theorem points_entry_iff_flag_and_user (m : DonationMetadata) (i : String)
    (pm : PaymentMethod) (db : Db) (ha : pm.amount ≠ 0) :
    ((m.givePointsBack = some "true" ∧ truthy m.userId) →
      ∃ e : PointHistory,
        (processLeg m i pm db).pointHistories = db.pointHistories ++ [e]) ∧
    (¬(m.givePointsBack = some "true" ∧ truthy m.userId) →
      (processLeg m i pm db).pointHistories = db.pointHistories) ∧
    ∃ d : Donation, (processLeg m i pm db).donations = db.donations ++ [d] := by
  refine ⟨fun hc => ?_, fun hc => ?_, processLeg_donations_append m i pm db ha⟩
  · simp only [processLeg, ha, if_neg, if_false]
    rcases hc with ⟨hf, hu⟩
    cases hm : m.userId with
    | none => rw [hm] at hu; simp [truthy] at hu
    | some uid => simp_all [appendPointsEntry]
  · simp only [processLeg, ha, if_neg, if_false]
    split
    · next hcond => exact absurd hcond hc
    · cases hm : m.userId <;> simp_all

/-- C8 witness: the creation condition evaluated on a concrete flagged leg
with a user present. -/
theorem points_entry_iff_witness :
    ((sampleMeta.givePointsBack = some "true" ∧ truthy sampleMeta.userId) →
      ∃ e : PointHistory,
        (processLeg sampleMeta "inv" { cryptoCode := "BTC", rate := 1, amount := 1 }
          emptyDb).pointHistories = emptyDb.pointHistories ++ [e]) ∧
    (¬(sampleMeta.givePointsBack = some "true" ∧ truthy sampleMeta.userId) →
      (processLeg sampleMeta "inv" { cryptoCode := "BTC", rate := 1, amount := 1 }
        emptyDb).pointHistories = emptyDb.pointHistories) ∧
    ∃ d : Donation,
      (processLeg sampleMeta "inv" { cryptoCode := "BTC", rate := 1, amount := 1 }
        emptyDb).donations = emptyDb.donations ++ [d] :=
  points_entry_iff_flag_and_user sampleMeta "inv"
    { cryptoCode := "BTC", rate := 1, amount := 1 } emptyDb (by norm_num)

/-- C10: a processed InvoicePaymentSettled event creates its donation with
userId null, pointsAdded 0, no membership expiry, and writes no
points-history entry, whatever userId, givePointsBack or isMembership the
metadata carries. -/
theorem invoicePaymentSettled_anonymous (env : Env) (req : WebhookRequest) (db : Db)
    (sig : String) (r : ℚ) (rs : List ℚ)
    (hm : req.method = "POST") (hs : req.btcpaySig = some sig)
    (hsig : (splitEq sig)[1]? = some (env.hmacHex req.rawBody))
    (ht : (env.parse req.rawBody).type = "InvoicePaymentSettled")
    (hflag : (env.parse req.rawBody).metadata.staticGeneratedForApi ≠ some "false")
    (hr : env.rates ((if (env.parse req.rawBody).paymentMethod = "BTC-OnChain"
        then "BTC" else "XMR") ++ "_USD") = r :: rs) :
    ∃ d : Donation,
      handleBtcpayWebhook env req db =
        some ({ status := 200, success := some true },
          { db with donations := db.donations ++ [d] }) ∧
      d.userId = none ∧ d.pointsAdded = 0 ∧ d.membershipExpiresAt = none := by
  refine ⟨{ userId := none
            btcPayInvoiceId := (env.parse req.rawBody).invoiceId
            projectName := (env.parse req.rawBody).metadata.projectName
            projectSlug := (env.parse req.rawBody).metadata.projectSlug
            fundSlug := (env.parse req.rawBody).metadata.fundSlug
            cryptoCode := if (env.parse req.rawBody).paymentMethod = "BTC-OnChain"
              then "BTC" else "XMR"
            grossCryptoAmount := (env.parse req.rawBody).paymentValue
            grossFiatAmount := round2 ((env.parse req.rawBody).paymentValue * r)
            netCryptoAmount := (env.parse req.rawBody).paymentValue
            netFiatAmount := round2 ((env.parse req.rawBody).paymentValue * r) },
    ?_, rfl, rfl, rfl⟩
  simp [handleBtcpayWebhook, hm, hs, hsig, ht, hflag, hr]

/-- C10 witness: a concrete processed delivery whose metadata carries a
user, the points flag and the membership flag. -/
theorem invoicePaymentSettled_anonymous_witness :
    ∃ d : Donation,
      handleBtcpayWebhook apiInvoiceEnv
        { method := "POST", btcpaySig := some "sha256=h", rawBody := "b" } emptyDb =
        some ({ status := 200, success := some true },
          { emptyDb with donations := emptyDb.donations ++ [d] }) ∧
      d.userId = none ∧ d.pointsAdded = 0 ∧ d.membershipExpiresAt = none :=
  invoicePaymentSettled_anonymous apiInvoiceEnv
    { method := "POST", btcpaySig := some "sha256=h", rawBody := "b" } emptyDb
    "sha256=h" 2 [] rfl rfl (by decide) rfl (by decide) rfl

end BtcpayWebhook
